import Mathlib

/- Verification development for the realtor-mvp repository.

   Shallow embedding of the two source files:
   - `cli_wrapper_proxy.py`: the `CLIWrapperProxy` class (`_run_cli_wrapper`,
     `_clean_env`, `create_completion`, `create_chat_completion`,
     `_format_messages`) together with the Node script (`node_code`) that
     `_run_cli_wrapper` feeds to `node -e`.
   - `realtor_mvp.py`: `call_claude` and the prompt-template builders
     `generate_description` / `generate_followup_email`.

   Modelling choices:
   - JSON-decoded values are the inductive `JVal`; numbers are integers
     (every number in the embedded code paths is an integral token count,
     index, or id).
   - The external subprocess (`node -e node_code`) is an input of type
     `SubprocessOutcome`; its `stdoutJson` component carries what
     `json.loads(result.stdout.strip())` yields (`none` = not parseable).
   - The external Facade HTTP call and the direct `claude` CLI call made by
     `call_claude` are inputs of types `FacadeOutcome` / `CliOutcome`.
   - `wrapper.callWithFallback` lives in `cli-wrapper.js`, which is not part
     of this repository; its result is the free type `WrapperResult`, with
     the §4.1 success invariant stated separately (`specOkResult`).
   - String case-mapping and stripping are modelled at the character-list
     level (ASCII-faithful, as all embedded literals are ASCII). -/

/-- JSON-like values, as produced by `json.loads` on the Python side and by
`JSON.stringify` inside the Node script. Numbers are modelled as integers. -/
inductive JVal where
  | null
  | bool (b : Bool)
  | num (n : Int)
  | str (s : String)
  | arr (elems : List JVal)
  | obj (fields : List (String × JVal))

/-- Association-list lookup used for JSON object field access. -/
def jlookup : List (String × JVal) → String → Option JVal
  | [], _ => none
  | (k, v) :: rest, key => if k = key then some v else jlookup rest key

/-- Dictionary access `d[k]` / `d.get(k)` on a JSON value: `some` when the
value is an object containing the key, `none` otherwise (in Python the
bracket form raises `KeyError`/`TypeError` in the `none` cases). -/
def JVal.getField : JVal → String → Option JVal
  | .obj fields, k => jlookup fields k
  | _, _ => none

/-- Python truthiness of a JSON-decoded value (`if cli_response["ok"]:`). -/
def JVal.truthy : JVal → Bool
  | .null => false
  | .bool b => b
  | .num n => n != 0
  | .str s => s != ""
  | .arr xs => !xs.isEmpty
  | .obj fs => !fs.isEmpty

/-- Single-quote character (written via its code point). -/
def pyQuote : String := String.singleton (Char.ofNat 39)

mutual

/-- Python `repr` of a JSON-decoded value (used by `str()` on containers). -/
def JVal.pyRepr : JVal → String
  | .null => "None"
  | .bool true => "True"
  | .bool false => "False"
  | .num n => toString n
  | .str s => pyQuote ++ s ++ pyQuote
  | .arr xs => "[" ++ JVal.pyReprElems xs ++ "]"
  | .obj fs => "\x7b" ++ JVal.pyReprFields fs ++ "\x7d"

/-- Comma-separated `repr`s of list elements. -/
def JVal.pyReprElems : List JVal → String
  | [] => ""
  | [x] => JVal.pyRepr x
  | x :: rest => JVal.pyRepr x ++ ", " ++ JVal.pyReprElems rest

/-- Comma-separated `repr`s of dictionary entries. -/
def JVal.pyReprFields : List (String × JVal) → String
  | [] => ""
  | [(k, v)] => pyQuote ++ k ++ pyQuote ++ ": " ++ JVal.pyRepr v
  | (k, v) :: rest => pyQuote ++ k ++ pyQuote ++ ": " ++ JVal.pyRepr v ++ ", " ++ JVal.pyReprFields rest

end

/-- Python `str()` of a JSON-decoded value, as used by the f-string
`f-string Error interpolation of cli_response["error"]`. -/
def JVal.pyStr : JVal → String
  | .str s => s
  | v => v.pyRepr

/-- `Math.ceil(n / 4)` on a natural number, i.e. the crude token estimate
`character_count / 4, rounded up` used by `node_code`. -/
def ceil4 (n : Nat) : Nat := (n + 3) / 4

/-- The usage object literal built by `node_code` / the Python error paths. -/
def usageObj (pt ct tt : Nat) : JVal :=
  .obj [("prompt_tokens", .num pt), ("completion_tokens", .num ct),
        ("total_tokens", .num tt)]

/-- Result of `wrapper.callWithFallback` (defined in `cli-wrapper.js`, which
is outside this repository): `ok`, `text` and `errors` as read by
`node_code`.  `text = none` models a missing/`null` field. -/
structure WrapperResult where
  ok : Bool
  text : Option String
  errors : Option String

/-- JavaScript `x || null` on an optional string (empty string is falsy). -/
def jsStrOrNull : Option String → JVal
  | none => .null
  | some s => if s = "" then .null else .str s

/-- JavaScript `x || d` on an optional string with a string default. -/
def jsStrOrDefault (o : Option String) (d : String) : String :=
  match o with
  | none => d
  | some s => if s = "" then d else s

/-- The response object `node_code` prints when the
`wrapper.callWithFallback` promise resolves with `result`:
`ok`, `text || null`, `ok ? null : (errors || "Unknown error")`, and the
token-usage estimate computed from `prompt.length` and `result.text`. -/
def nodeResolvedResponse (prompt : String) (r : WrapperResult) : JVal :=
  .obj [("ok", .bool r.ok),
        ("text", jsStrOrNull r.text),
        ("error", if r.ok then .null else .str (jsStrOrDefault r.errors "Unknown error")),
        ("usage", usageObj (ceil4 prompt.length)
          (match r.text with
           | some s => if s = "" then 0 else ceil4 s.length
           | none => 0)
          (ceil4 (prompt.length + (r.text.getD "").length)))]

/-- The response object `node_code` prints in its `.catch` handler:
`ok: false`, `text: null`, `error: err.message`, usage with zero
completion tokens. -/
def nodeRejectedResponse (prompt : String) (msg : String) : JVal :=
  .obj [("ok", .bool false), ("text", .null), ("error", .str msg),
        ("usage", usageObj (ceil4 prompt.length) 0 (ceil4 prompt.length))]

/-- How the `node_code` script terminates: promise resolved with a wrapper
result, or promise rejected with an error message. -/
inductive NodeEvent where
  | resolved (r : WrapperResult)
  | rejected (msg : String)

/-- The single JSON response printed to stdout by `node_code`. -/
def nodeResponse (prompt : String) : NodeEvent → JVal
  | .resolved r => nodeResolvedResponse prompt r
  | .rejected msg => nodeRejectedResponse prompt msg

/-- Outcome of `subprocess.run([node, -e, node_code], ...)` as observed by
`_run_cli_wrapper`: a completed process (return code, raw stdout, the result
of `json.loads(stdout.strip())` if stdout is parseable JSON, stderr), a
`subprocess.TimeoutExpired`, or any other raised exception. -/
inductive SubprocessOutcome where
  | completed (returncode : Int) (stdout : String) (stdoutJson : Option JVal) (stderr : String)
  | timeout
  | raised (msg : String)

/-- The error dictionary `_run_cli_wrapper` builds on its own failure paths:
`ok: False, text: None, error: <msg>`, all-zero usage. -/
def pyErrEnvelope (e : String) : JVal :=
  .obj [("ok", .bool false), ("text", .null), ("error", .str e),
        ("usage", usageObj 0 0 0)]

/-- `CLIWrapperProxy._run_cli_wrapper` (the part after the subprocess call,
which is the whole observable behaviour): on a zero exit, return the parsed
stdout as-is, or a parse-failure envelope; on a non-zero exit, an envelope
with `stderr or "CLI wrapper execution failed"`; on timeout / any exception,
the corresponding envelope.  The `prompt` argument is unused here because
the prompt only flows into `node_code` (modelled inside
`SubprocessOutcome` via `nodeOutcome`). -/
def runCliWrapper (_prompt : String) (out : SubprocessOutcome) : JVal :=
  match out with
  | .completed rc sout js serr =>
    if rc = 0 then
      match js with
      | some v => v
      | none => pyErrEnvelope ("Failed to parse response: " ++ sout)
    else
      pyErrEnvelope (if serr = "" then "CLI wrapper execution failed" else serr)
  | .timeout => pyErrEnvelope "CLI wrapper timeout (300s)"
  | .raised msg => pyErrEnvelope msg

/-- The subprocess outcome in which `node` ran `node_code` to completion:
exit code 0 and stdout whose JSON is the `node_code` response for `ev`. -/
def nodeOutcome (prompt : String) (ev : NodeEvent) (stdout stderr : String) :
    SubprocessOutcome :=
  .completed 0 stdout (some (nodeResponse prompt ev)) stderr

/-- `CLIWrapperProxy.create_completion`, after the `_run_cli_wrapper` call:
the OpenAI-style envelope built from the CLI response dictionary `resp`.
`count` is `self.call_count` (already incremented) and `created` the
timestamp.  `none` models a Python `KeyError`/`TypeError` while reading
`resp` (cannot happen for responses built by the code of this repository). -/
def createCompletionJ (count : Nat) (created : Int) (model : String)
    (resp : JVal) : Option JVal :=
  match resp.getField "ok" with
  | none => none
  | some okv =>
    let choiceText : Option JVal :=
      if okv.truthy then resp.getField "text"
      else (resp.getField "error").map (fun e => .str ("Error: " ++ e.pyStr))
    match choiceText with
    | none => none
    | some t =>
      some (.obj
        [("id", .str ("clawwork-" ++ toString count)),
         ("object", .str "text_completion"),
         ("created", .num created),
         ("model", .str model),
         ("choices", .arr [.obj
           [("text", t), ("index", .num 0), ("logprobs", .null),
            ("finish_reason", .str (if okv.truthy then "stop" else "error"))]]),
         ("usage", (resp.getField "usage").getD (usageObj 0 0 0))])

/-- `CLIWrapperProxy.create_chat_completion`, after the `_run_cli_wrapper`
call: identical to `create_completion` except for the id prefix, the object
tag, and the chat-style choice carrying `message.role`/`message.content`. -/
def createChatCompletionJ (count : Nat) (created : Int) (model : String)
    (resp : JVal) : Option JVal :=
  match resp.getField "ok" with
  | none => none
  | some okv =>
    let choiceText : Option JVal :=
      if okv.truthy then resp.getField "text"
      else (resp.getField "error").map (fun e => .str ("Error: " ++ e.pyStr))
    match choiceText with
    | none => none
    | some t =>
      some (.obj
        [("id", .str ("chatcmpl-" ++ toString count)),
         ("object", .str "chat.completion"),
         ("created", .num created),
         ("model", .str model),
         ("choices", .arr [.obj
           [("index", .num 0),
            ("message", .obj [("role", .str "assistant"), ("content", t)]),
            ("finish_reason", .str (if okv.truthy then "stop" else "error"))]]),
         ("usage", (resp.getField "usage").getD (usageObj 0 0 0))])

/-- A message record as read by `_format_messages`: `msg.get("role", "user")`
and `msg.get("content", "")`.  `none` models an absent key. -/
structure ChatMsg where
  role : Option String
  content : Option String

/-- ASCII upper-casing of one character, as Python `str.upper()` does on the
ASCII role strings used here. -/
def upChar (c : Char) : Char := c.toUpper

/-- Upper-casing a string at the character-list level (`role.upper()`). -/
def pyUpper (s : String) : String := String.mk (s.data.map upChar)

/-- Python `sep.join(lines)`. -/
def joinSep (sep : String) : List String → String
  | [] => ""
  | [x] => x
  | x :: rest => x ++ sep ++ joinSep sep rest

/-- The line block `_format_messages` appends for one message:
`f"\x7brole\x7d:\n\x7bcontent\x7d\n"` with the defaulted role upper-cased. -/
def msgEntry (m : ChatMsg) : String :=
  pyUpper (m.role.getD "user") ++ ":\n" ++ m.content.getD "" ++ "\n"

/-- `CLIWrapperProxy._format_messages`: `"\n".join(lines)`. -/
def formatMessages (msgs : List ChatMsg) : String :=
  joinSep "\n" (msgs.map msgEntry)

/-- The role-tagged block of one message without its trailing newline (used to
state the blank-line-separated characterization of `formatMessages`). -/
def msgBlock (m : ChatMsg) : String :=
  pyUpper (m.role.getD "user") ++ ":\n" ++ m.content.getD ""

/-- `pat.isPrefixOf l` on character lists (plain structural recursion). -/
def charsPre : List Char → List Char → Bool
  | [], _ => true
  | _ :: _, [] => false
  | p :: ps, c :: cs => p == c && charsPre ps cs

/-- Substring test `pat in s` (Python `in` on strings), at char-list level. -/
def charsSub (pat : List Char) : List Char → Bool
  | [] => pat.isEmpty
  | c :: rest => charsPre pat (c :: rest) || charsSub pat rest

/-- Python `"CLAUDECODE" in key or "CLAUDE_CODE" in key`. -/
def hasNestedMarker (key : String) : Bool :=
  charsSub "CLAUDECODE".data key.data || charsSub "CLAUDE_CODE".data key.data

/-- `CLIWrapperProxy._clean_env`, modelled (as §9 of the spec directs) as a
pure function on an environment snapshot: `os.environ.copy()` followed by
deletion of every key containing a nested-session marker leaves exactly the
marker-free entries of the copy; the environment of the caller (the argument)
is untouched. -/
def cleanEnv (env : List (String × String)) : List (String × String) :=
  env.filter (fun kv => !hasNestedMarker kv.1)

/-- Outcome of the demo-app HTTP POST to the Facade
(`client.post(CLI_WRAPPER_URL, ...)`): the request raised
(connection error / timeout — the bare `except` path), or a response with a
status code and JSON body. -/
inductive FacadeOutcome where
  | unreachable
  | response (status : Nat) (body : JVal)

/-- Outcome of the direct demo-app `subprocess.run(["claude", "message",
prompt], ...)` call: raised (timeout / missing binary), or completed with a
return code and stdout. -/
inductive CliOutcome where
  | failed
  | ran (returncode : Int) (stdout : String)

/-- Python whitespace check for `str.strip()` (ASCII whitespace). -/
def pyWs (c : Char) : Bool := c == ' ' || c == '\t' || c == '\n' || c == '\r'

/-- Python `s.strip()` at the character-list level. -/
def pyStrip (s : String) : String :=
  String.mk (((s.data.dropWhile pyWs).reverse.dropWhile pyWs).reverse)

/-- The demo-app extraction `data["choices"][0]["message"]["content"]`;
`none` models the raised `KeyError`/`IndexError`/`TypeError` that the bare
`except` around the Facade call swallows. -/
def extractChatContent (body : JVal) : Option JVal :=
  (body.getField "choices").bind fun cs =>
    match cs with
    | .arr (c :: _) => (c.getField "message").bind fun m => m.getField "content"
    | _ => none

/-- The direct-CLI leg of `call_claude` together with the final
`raise Exception("Unable to reach Claude API")`: a zero exit returns the
stripped stdout, anything else reaches the final raise. -/
def runClaudeCliLeg : CliOutcome → Except String String
  | .failed => .error "Unable to reach Claude API"
  | .ran rc sout => if rc = 0 then .ok (pyStrip sout) else .error "Unable to reach Claude API"

/-- `call_claude` in `realtor_mvp.py`, as a function of the two external
outcomes.  The Bool records whether the direct-CLI fallback was invoked.
`Except.error` is the explicit `Exception("Unable to reach Claude API")`. -/
def callClaude (facade : FacadeOutcome) (cli : CliOutcome) :
    Except String JVal × Bool :=
  match facade with
  | .response 200 body =>
    match extractChatContent body with
    | some v => (.ok v, false)
    | none => ((runClaudeCliLeg cli).map JVal.str, true)
  | _ => ((runClaudeCliLeg cli).map JVal.str, true)

/-- Grouping of reversed decimal digits in threes with commas (the `,`
option of Python format specs). `k` counts digits emitted in the current
group. -/
def commaGroupAux : List Char → Nat → List Char
  | [], _ => []
  | c :: rest, k =>
    if k == 3 then ',' :: c :: commaGroupAux rest 1
    else c :: commaGroupAux rest (k + 1)

/-- Python `format(n, ",.0f")` on an integer: decimal digits grouped in
threes by commas (floats do not occur in the embedded call sites). -/
def commaGroup (n : Int) : String :=
  (if n < 0 then "-" else "") ++
    String.mk ((commaGroupAux (toString n.natAbs).data.reverse 0).reverse)

/-- The format operation `f"...\x7bv:,.0f\x7d..."` applied to a JSON-decoded
value: numbers are comma-grouped; a string operand raises `ValueError`
(Python: `Unknown format code "f" for object of type "str"`); other operands
also raise.  `Except.error` models the raised exception. -/
def pyFormatCommaF0 : JVal → Except String String
  | .num n => .ok (commaGroup n)
  | .str _ => .error "ValueError: Unknown format code f for object of type str"
  | _ => .error "TypeError: unsupported format string"

/-- `d.get(k, "N/A")` on a caller-supplied JSON record. -/
def fieldOrNA (d : List (String × JVal)) (k : String) : JVal :=
  (jlookup d k).getD (.str "N/A")

/-- The f-string prompt built by `generate_description` in
`realtor_mvp.py`.  Every field except `price` is interpolated with plain
`str()` after defaulting to `"N/A"`; `price` is interpolated with the
`:,.0f` format spec, so building the prompt raises when `price` is absent
(the default string `"N/A"` reaches the numeric format code). -/
def descriptionPrompt (listing : List (String × JVal)) : Except String String :=
  (pyFormatCommaF0 (fieldOrNA listing "price")).map fun priceStr =>
    "You are a professional real estate copywriter. Write a compelling MLS listing description.\n\nProperty Details:\n- Address: "
    ++ (fieldOrNA listing "address").pyStr
    ++ "\n- Bedrooms: " ++ (fieldOrNA listing "bedrooms").pyStr
    ++ "\n- Bathrooms: " ++ (fieldOrNA listing "bathrooms").pyStr
    ++ "\n- Square Feet: " ++ (fieldOrNA listing "sqft").pyStr
    ++ "\n- Price: $" ++ priceStr
    ++ "\n- Year Built: " ++ (fieldOrNA listing "year_built").pyStr
    ++ "\n- Lot Size: " ++ (fieldOrNA listing "lot_size").pyStr
    ++ "\n- Features: " ++ (fieldOrNA listing "features").pyStr
    ++ "\n- Condition: " ++ (fieldOrNA listing "condition").pyStr
    ++ "\n- Neighborhood: " ++ (fieldOrNA listing "neighborhood").pyStr
    ++ "\n\nWrite a captivating 3-4 paragraph listing description that:\n1. Opens with an engaging hook\n2. Highlights key features and benefits\n3. Paints a picture of lifestyle\n4. Creates urgency/appeal\n\nMake it persuasive, professional, and perfect for MLS."

/-- The f-string prompt built by `generate_followup_email`: `budget` is
interpolated with the `:,.0f` numeric format spec (raising when absent, as the
default `"N/A"` reaches it); the other profile fields with plain `str()`. -/
def followupPrompt (agentName : String) (profile : List (String × JVal)) :
    Except String String :=
  (pyFormatCommaF0 (fieldOrNA profile "budget")).map fun budgetStr =>
    "You are a professional real estate agent. Write a personalized follow-up email.\n\nAgent Name: "
    ++ agentName
    ++ "\nBuyer Profile:\n- Interests: " ++ (fieldOrNA profile "interests").pyStr
    ++ "\n- Budget: $" ++ budgetStr
    ++ "\n- Timeline: " ++ (fieldOrNA profile "timeline").pyStr
    ++ "\n- Previous Inquiries: " ++ (fieldOrNA profile "previous_inquiries").pyStr
    ++ "\n\nWrite a warm, personalized follow-up email that:\n1. References previous interaction\n2. Shows genuine interest\n3. Offers value (market insights, new listings)\n4. Includes soft call-to-action\n5. Professional but conversational tone\n\nMake it compelling and personal."

/-- Usage-field accessor on a completion envelope or CLI response:
`e["usage"][k]`. -/
def envUsageField (e : JVal) (k : String) : Option JVal :=
  (e.getField "usage").bind fun u => u.getField k

/-- The single choice of an envelope: `e["choices"][0]`. -/
def firstChoice (e : JVal) : Option JVal :=
  match e.getField "choices" with
  | some (.arr (c :: _)) => some c
  | _ => none

/-- `e["choices"][0]["finish_reason"]`. -/
def choiceFinish (e : JVal) : Option JVal :=
  (firstChoice e).bind fun c => c.getField "finish_reason"

/-- `e["choices"][0]["text"]` (legacy completion shape). -/
def choiceTextJ (e : JVal) : Option JVal :=
  (firstChoice e).bind fun c => c.getField "text"

/-- `e["choices"][0]["message"]["content"]` (chat completion shape). -/
def chatContentJ (e : JVal) : Option JVal :=
  (firstChoice e).bind fun c => (c.getField "message").bind fun m => m.getField "content"

/-- Output length the `node_code` usage estimate is based on:
`(result.text || "").length` for a resolved promise, 0 for a rejected one. -/
def nodeOutLen : NodeEvent → Nat
  | .resolved r => (r.text.getD "").length
  | .rejected _ => 0

/-- Modelled from the spec: the §4.1 success contract of
`wrapper.callWithFallback` (defined in `cli-wrapper.js`, which is not in
this repository): on success (`ok: true`) the tool "produces non-empty
output", i.e. `text` is a non-empty string. -/
def specOkResult (r : WrapperResult) : Prop :=
  r.ok = true → ∃ s, r.text = some s ∧ s ≠ ""

/-- The §4.1 success contract lifted to a `node_code` termination event. -/
def specOkEvent : NodeEvent → Prop
  | .resolved r => specOkResult r
  | .rejected _ => True

/-- A subprocess outcome is well-formed when any JSON its stdout parses to
is a response actually printed by `node_code` (for a wrapper result obeying
the §4.1 success contract).  This is how the pipeline of the repository itself
produces stdout. -/
def GoodOutcome (prompt : String) (out : SubprocessOutcome) : Prop :=
  ∀ rc sout js serr v, out = .completed rc sout js serr → js = some v →
    ∃ ev, v = nodeResponse prompt ev ∧ specOkEvent ev

/-- The usage facts that hold of one node-script-produced invocation result
(resolved or rejected), as carried into both completion envelopes: the three
token fields equal the ceil-of-quarters estimates computed from the prompt
length and the output length, and the total is bounded by the sum of the
other two. -/
def C1EnvelopeProp (prompt : String) (ev : NodeEvent) (sout serr : String)
    (count : Nat) (created : Int) (model : String) : Prop :=
  ∃ e e2,
    createCompletionJ count created model
      (runCliWrapper prompt (nodeOutcome prompt ev sout serr)) = some e ∧
    createChatCompletionJ count created model
      (runCliWrapper prompt (nodeOutcome prompt ev sout serr)) = some e2 ∧
    envUsageField e "prompt_tokens" = some (.num (ceil4 prompt.length)) ∧
    envUsageField e "completion_tokens" = some (.num (ceil4 (nodeOutLen ev))) ∧
    envUsageField e "total_tokens" = some (.num (ceil4 (prompt.length + nodeOutLen ev))) ∧
    envUsageField e2 "prompt_tokens" = some (.num (ceil4 prompt.length)) ∧
    envUsageField e2 "completion_tokens" = some (.num (ceil4 (nodeOutLen ev))) ∧
    envUsageField e2 "total_tokens" = some (.num (ceil4 (prompt.length + nodeOutLen ev))) ∧
    ceil4 (prompt.length + nodeOutLen ev) ≤ ceil4 prompt.length + ceil4 (nodeOutLen ev)

/-- The finish-reason/text facts for the two envelopes built from a CLI
response `resp`: both envelope builders succeed, each envelope has exactly
one choice, an `ok: true` response yields `finish_reason = "stop"` with a
non-null text/content, and an `ok: false` response yields
`finish_reason = "error"` with a text/content of the form `Error: ...`. -/
def C3Conclusion (resp : JVal) (count : Nat) (created : Int) (model : String) : Prop :=
  (∃ b, resp.getField "ok" = some (.bool b)) ∧
  ∃ e e2,
    createCompletionJ count created model resp = some e ∧
    createChatCompletionJ count created model resp = some e2 ∧
    (∃ c, e.getField "choices" = some (.arr [c])) ∧
    (∃ c, e2.getField "choices" = some (.arr [c])) ∧
    (resp.getField "ok" = some (.bool true) →
      choiceFinish e = some (.str "stop") ∧ choiceFinish e2 = some (.str "stop") ∧
      (∃ t, choiceTextJ e = some t ∧ t ≠ JVal.null) ∧
      (∃ t, chatContentJ e2 = some t ∧ t ≠ JVal.null)) ∧
    (resp.getField "ok" = some (.bool false) →
      choiceFinish e = some (.str "error") ∧ choiceFinish e2 = some (.str "error") ∧
      (∃ s, choiceTextJ e = some (.str ("Error: " ++ s))) ∧
      (∃ s, chatContentJ e2 = some (.str ("Error: " ++ s))))

/-- Whether a JSON value is a record with exactly the keys `ok`, `text`,
`error`, `usage` (in the order the source writes them) whose `usage` value
has exactly the three token-count keys. -/
def isEnvelopeShaped : JVal → Bool
  | .obj [("ok", _), ("text", _), ("error", _), ("usage", u)] =>
    match u with
    | .obj [("prompt_tokens", _), ("completion_tokens", _), ("total_tokens", _)] => true
    | _ => false
  | _ => false

/-- The Facade call did not come back as an HTTP 200 response. -/
def facadeNot200 (f : FacadeOutcome) : Prop := ∀ body, f ≠ .response 200 body

/-- The direct-CLI leg fails: a raised exception/timeout, or a non-zero
exit code. -/
def cliFailed : CliOutcome → Prop
  | .failed => True
  | .ran rc _ => rc ≠ 0

/-- Any 200 body served by the Facade is an envelope actually produced by
the proxy `create_chat_completion` (which is how `realtor_mvp.py` is
deployed against `cli_wrapper_proxy.py`). -/
def FacadeWellFormed (f : FacadeOutcome) : Prop :=
  ∀ body, f = .response 200 body →
    ∃ count created model resp, createChatCompletionJ count created model resp = some body

/-- What C6 claims of `call_claude` for given external outcomes: the
direct-CLI fallback is skipped exactly when the Facade answered 200, and
when both legs fail the result is the explicit unreachable error. -/
def C6Conclusion (facade : FacadeOutcome) (cli : CliOutcome) : Prop :=
  ((callClaude facade cli).2 = false ↔ ∃ body, facade = .response 200 body) ∧
  (facadeNot200 facade → cliFailed cli →
    callClaude facade cli = (.error "Unable to reach Claude API", true))

/-- What C10 claims: a 200-carried error envelope (chat content of the form
`Error: ...`, finish reason `error`) is returned by `call_claude` as the
generated text, as a success, with the fallback not attempted. -/
def C10Conclusion (e : JVal) (cli : CliOutcome) : Prop :=
  ∃ s, chatContentJ e = some (.str ("Error: " ++ s)) ∧
    choiceFinish e = some (.str "error") ∧
    callClaude (.response 200 e) cli = (.ok (.str ("Error: " ++ s)), false)

/- Helper lemmas shared by the claim theorems. -/

lemma strDataEq (a b : String) (h : a.data = b.data) : a = b := by
  cases a; cases b; exact congrArg String.mk h

lemma msgEntry_eq_block (m : ChatMsg) : msgEntry m = msgBlock m ++ "\n" := rfl

lemma joinSep_shift (msgs : List ChatMsg) :
    formatMessages msgs =
      joinSep "\n\n" (msgs.map msgBlock) ++ (if msgs.isEmpty then "" else "\n") := by
  induction msgs with
  | nil => rfl
  | cons m rest ih =>
    cases rest with
    | nil => rfl
    | cons m2 rest2 =>
      show msgEntry m ++ "\n" ++ joinSep "\n" ((m2 :: rest2).map msgEntry) =
        msgBlock m ++ "\n\n" ++ joinSep "\n\n" ((m2 :: rest2).map msgBlock) ++ "\n"
      have ih2 : joinSep "\n" ((m2 :: rest2).map msgEntry) =
          joinSep "\n\n" ((m2 :: rest2).map msgBlock) ++ "\n" := by
        simpa [formatMessages] using ih
      rw [ih2, msgEntry_eq_block]
      apply strDataEq
      simp [String.data_append]

lemma formatMessages_contains (msgs : List ChatMsg) (m : ChatMsg) (hm : m ∈ msgs) :
    ∃ l r : List Char, (formatMessages msgs).data = l ++ (msgBlock m).data ++ r := by
  induction msgs with
  | nil => cases hm
  | cons m0 rest ih =>
    rcases List.mem_cons.mp hm with h | h
    · subst h
      cases rest with
      | nil =>
        exact ⟨[], "\n".data,
          by simp [formatMessages, joinSep, msgEntry_eq_block, String.data_append]⟩
      | cons m2 rest2 =>
        refine ⟨[], ("\n".data ++ "\n".data ++
          (joinSep "\n" ((m2 :: rest2).map msgEntry)).data), ?_⟩
        show (msgEntry m ++ "\n" ++ joinSep "\n" ((m2 :: rest2).map msgEntry)).data = _
        rw [msgEntry_eq_block]
        simp [String.data_append]
    · obtain ⟨l, r, hlr⟩ := ih h
      cases rest with
      | nil => cases h
      | cons m2 rest2 =>
        refine ⟨(msgEntry m0).data ++ "\n".data ++ l, r, ?_⟩
        show (msgEntry m0 ++ "\n" ++ joinSep "\n" ((m2 :: rest2).map msgEntry)).data = _
        have hj : (joinSep "\n" ((m2 :: rest2).map msgEntry)).data =
            l ++ (msgBlock m).data ++ r := hlr
        rw [String.data_append, String.data_append, hj]
        simp

lemma createCompletionJ_std (count : Nat) (created : Int) (model : String)
    (b : Bool) (tv ev u : JVal) :
    createCompletionJ count created model
      (.obj [("ok", .bool b), ("text", tv), ("error", ev), ("usage", u)]) =
    some (.obj
      [("id", .str ("clawwork-" ++ toString count)),
       ("object", .str "text_completion"),
       ("created", .num created),
       ("model", .str model),
       ("choices", .arr [.obj
         [("text", if b then tv else .str ("Error: " ++ ev.pyStr)),
          ("index", .num 0), ("logprobs", .null),
          ("finish_reason", .str (if b then "stop" else "error"))]]),
       ("usage", u)]) := by
  cases b <;> rfl

lemma createChatCompletionJ_std (count : Nat) (created : Int) (model : String)
    (b : Bool) (tv ev u : JVal) :
    createChatCompletionJ count created model
      (.obj [("ok", .bool b), ("text", tv), ("error", ev), ("usage", u)]) =
    some (.obj
      [("id", .str ("chatcmpl-" ++ toString count)),
       ("object", .str "chat.completion"),
       ("created", .num created),
       ("model", .str model),
       ("choices", .arr [.obj
         [("index", .num 0),
          ("message", .obj [("role", .str "assistant"),
            ("content", if b then tv else .str ("Error: " ++ ev.pyStr))]),
          ("finish_reason", .str (if b then "stop" else "error"))]]),
       ("usage", u)]) := by
  cases b <;> rfl

lemma ceil4_mono (m n : Nat) (h : m ≤ n) : ceil4 m ≤ ceil4 n := by
  unfold ceil4; omega

lemma ceil4_add_le (a b : Nat) : ceil4 (a + b) ≤ ceil4 a + ceil4 b := by
  unfold ceil4; omega

lemma C3_std_resp (b : Bool) (tv ev u : JVal) (count : Nat) (created : Int)
    (model : String)
    (htv : b = true → ∃ s, tv = .str s)
    (hev : b = false → ∃ m, ev = .str m) :
    C3Conclusion (.obj [("ok", .bool b), ("text", tv), ("error", ev), ("usage", u)])
      count created model := by
  cases b
  · obtain ⟨m, hm⟩ := hev rfl
    subst hm
    refine ⟨⟨false, rfl⟩, _, _,
      createCompletionJ_std count created model false tv (.str m) u,
      createChatCompletionJ_std count created model false tv (.str m) u,
      ⟨_, rfl⟩, ⟨_, rfl⟩, ?_, ?_⟩
    · intro habs
      simp [JVal.getField, jlookup] at habs
    · intro _
      exact ⟨rfl, rfl, ⟨m, rfl⟩, ⟨m, rfl⟩⟩
  · obtain ⟨s, hs⟩ := htv rfl
    subst hs
    refine ⟨⟨true, rfl⟩, _, _,
      createCompletionJ_std count created model true (.str s) ev u,
      createChatCompletionJ_std count created model true (.str s) ev u,
      ⟨_, rfl⟩, ⟨_, rfl⟩, ?_, ?_⟩
    · intro _
      exact ⟨rfl, rfl, ⟨.str s, rfl, by simp⟩, ⟨.str s, rfl, by simp⟩⟩
    · intro habs
      simp [JVal.getField, jlookup] at habs

lemma extractChatContent_of_createChat (count : Nat) (created : Int) (model : String)
    (resp e : JVal) (h : createChatCompletionJ count created model resp = some e) :
    ∃ v, extractChatContent e = some v := by
  unfold createChatCompletionJ at h
  rcases hok : resp.getField "ok" with _ | okv
  · rw [hok] at h; cases h
  · rw [hok] at h
    simp only [] at h
    rcases ht : (if okv.truthy then resp.getField "text"
        else (resp.getField "error").map (fun x => JVal.str ("Error: " ++ x.pyStr)))
        with _ | t
    · rw [ht] at h; cases h
    · rw [ht] at h
      injection h with he
      subst he
      exact ⟨t, rfl⟩

lemma callClaude_not200 (facade : FacadeOutcome) (cli : CliOutcome)
    (hf : facadeNot200 facade) :
    callClaude facade cli = ((runClaudeCliLeg cli).map JVal.str, true) := by
  cases facade with
  | unreachable => rfl
  | response s body =>
    by_cases hs : s = 200
    · subst hs; exact absurd rfl (hf body)
    · unfold callClaude
      split
      · next heq => injection heq with h1 h2; exact absurd h1 hs
      · rfl

/- Claim theorems. -/

/-- Claim C1 (amended): for every invocation result produced by the node
script (promise resolved or rejected) and carried through
`create_completion` / `create_chat_completion`, the usage fields are exactly
`prompt_tokens = ceil(promptChars/4)`, `completion_tokens = ceil(outChars/4)`
and `total_tokens = ceil((promptChars + outChars)/4)`; the total is at most
(but, contrary to the claim as stated, not always equal to)
`prompt_tokens + completion_tokens`; and the estimate `ceil4` is
monotonically non-decreasing in the length of the corresponding text. -/
theorem C1_usage_fields :
    (∀ prompt ev sout serr count created model,
      C1EnvelopeProp prompt ev sout serr count created model)
    ∧ (∀ m n : Nat, m ≤ n → ceil4 m ≤ ceil4 n) := by
  constructor
  · intro prompt ev sout serr count created model
    cases ev with
    | rejected msg =>
      refine ⟨_, _, createCompletionJ_std count created model false .null (.str msg)
          (usageObj (ceil4 prompt.length) 0 (ceil4 prompt.length)),
        createChatCompletionJ_std count created model false .null (.str msg)
          (usageObj (ceil4 prompt.length) 0 (ceil4 prompt.length)),
        ?_, ?_, ?_, ?_, ?_, ?_, ceil4_add_le _ _⟩ <;>
        simp [envUsageField, JVal.getField, jlookup, usageObj, nodeOutLen, ceil4]
    | resolved r =>
      obtain ⟨ok, text, errs⟩ := r
      have h1 := createCompletionJ_std count created model ok (jsStrOrNull text)
        (if ok then .null else .str (jsStrOrDefault errs "Unknown error"))
        (usageObj (ceil4 prompt.length)
          (match text with
           | some s => if s = "" then 0 else ceil4 s.length
           | none => 0)
          (ceil4 (prompt.length + (text.getD "").length)))
      have h2 := createChatCompletionJ_std count created model ok (jsStrOrNull text)
        (if ok then .null else .str (jsStrOrDefault errs "Unknown error"))
        (usageObj (ceil4 prompt.length)
          (match text with
           | some s => if s = "" then 0 else ceil4 s.length
           | none => 0)
          (ceil4 (prompt.length + (text.getD "").length)))
      rcases text with _ | s
      · refine ⟨_, _, h1, h2, ?_, ?_, ?_, ?_, ?_, ?_, ceil4_add_le _ _⟩ <;>
          simp [envUsageField, JVal.getField, jlookup, usageObj, nodeOutLen, ceil4]
      · by_cases hs : s = ""
        · subst hs
          refine ⟨_, _, h1, h2, ?_, ?_, ?_, ?_, ?_, ?_, ceil4_add_le _ _⟩ <;>
            simp [envUsageField, JVal.getField, jlookup, usageObj, nodeOutLen, ceil4]
        · refine ⟨_, _, h1, h2, ?_, ?_, ?_, ?_, ?_, ?_, ceil4_add_le _ _⟩ <;>
            simp [envUsageField, JVal.getField, jlookup, usageObj, nodeOutLen, ceil4, hs]
  · exact ceil4_mono

/-- Witness for C1: the amended usage facts at a concrete rejected-promise
run, and monotonicity at concrete lengths. -/
theorem C1_usage_fields_witness :
    C1EnvelopeProp "hi" (NodeEvent.rejected "x") "" "" 1 0 "claude" ∧
      ceil4 1 ≤ ceil4 2 :=
  ⟨C1_usage_fields.1 "hi" (NodeEvent.rejected "x") "" "" 1 0 "claude",
   C1_usage_fields.2 1 2 (by decide)⟩

/-- Counterexample to C1 as stated: for prompt `a` (1 character) and output
`b` (1 character) the envelope built by `create_completion` carries
`prompt_tokens = 1`, `completion_tokens = 1` but `total_tokens = 1`, so
`total_tokens = prompt_tokens + completion_tokens` fails. -/
theorem C1_sum_equation_counterexample :
    ∃ e, createCompletionJ 1 0 "claude"
        (runCliWrapper "a"
          (nodeOutcome "a" (NodeEvent.resolved ⟨true, some "b", none⟩) "" "")) = some e ∧
      envUsageField e "prompt_tokens" = some (JVal.num 1) ∧
      envUsageField e "completion_tokens" = some (JVal.num 1) ∧
      envUsageField e "total_tokens" = some (JVal.num 1) ∧
      (1 : Int) ≠ 1 + 1 :=
  ⟨_, rfl, rfl, rfl, rfl, by decide⟩

/-- Claim C2 (code bug): evaluating the template builders at a record with
the formatted field absent shows the prompt construction raising (the
default placeholder `N/A` reaches the numeric `,.0f` format code, a Python
`ValueError`) instead of rendering the placeholder literally and returning
normally — while `d.get` does supply the literal `N/A` default the claim
expects. -/
theorem C2_missing_price_budget_raise :
    descriptionPrompt [] =
      Except.error "ValueError: Unknown format code f for object of type str" ∧
    followupPrompt "Jordan" [] =
      Except.error "ValueError: Unknown format code f for object of type str" ∧
    (fieldOrNA [] "price") = .str "N/A" :=
  ⟨rfl, rfl, rfl⟩

/-- Claim C3: for every well-formed subprocess outcome (stdout JSON, when
parseable, is a `node_code` response obeying the §4.1 success contract),
both envelopes are built, each with a single choice; `ok: true` yields
`finish_reason = "stop"` and non-null text/content, `ok: false` yields
`finish_reason = "error"` and text/content of the form `Error: ...`. -/
theorem C3_finish_reason_text (prompt : String) (out : SubprocessOutcome)
    (h : GoodOutcome prompt out) (count : Nat) (created : Int) (model : String) :
    C3Conclusion (runCliWrapper prompt out) count created model := by
  cases out with
  | timeout =>
    exact C3_std_resp false .null (.str "CLI wrapper timeout (300s)") (usageObj 0 0 0)
      count created model (by intro hh; cases hh) (fun _ => ⟨_, rfl⟩)
  | raised msg =>
    exact C3_std_resp false .null (.str msg) (usageObj 0 0 0)
      count created model (by intro hh; cases hh) (fun _ => ⟨_, rfl⟩)
  | completed rc sout js serr =>
    by_cases hrc : rc = 0
    · subst hrc
      cases js with
      | none =>
        exact C3_std_resp false .null (.str ("Failed to parse response: " ++ sout))
          (usageObj 0 0 0) count created model (by intro hh; cases hh) (fun _ => ⟨_, rfl⟩)
      | some v =>
        obtain ⟨ev, hv, hspec⟩ := h 0 sout (some v) serr v rfl rfl
        subst hv
        have hrun : runCliWrapper prompt
            (.completed 0 sout (some (nodeResponse prompt ev)) serr) =
            nodeResponse prompt ev := rfl
        rw [hrun]
        cases ev with
        | rejected msg =>
          exact C3_std_resp false .null (.str msg)
            (usageObj (ceil4 prompt.length) 0 (ceil4 prompt.length))
            count created model (by intro hh; cases hh) (fun _ => ⟨_, rfl⟩)
        | resolved r =>
          refine C3_std_resp r.ok (jsStrOrNull r.text)
            (if r.ok then .null else .str (jsStrOrDefault r.errors "Unknown error"))
            (usageObj (ceil4 prompt.length)
              (match r.text with
               | some s => if s = "" then 0 else ceil4 s.length
               | none => 0)
              (ceil4 (prompt.length + (r.text.getD "").length)))
            count created model ?_ ?_
          · intro hb
            obtain ⟨s, hs1, hs2⟩ := hspec hb
            rw [hs1]
            exact ⟨s, by simp [jsStrOrNull, hs2]⟩
          · intro hb
            exact ⟨jsStrOrDefault r.errors "Unknown error", by simp [hb]⟩
    · have hrun : runCliWrapper prompt (.completed rc sout js serr) =
          pyErrEnvelope (if serr = "" then "CLI wrapper execution failed" else serr) := by
        simp [runCliWrapper, hrc]
      rw [hrun]
      exact C3_std_resp false .null
        (.str (if serr = "" then "CLI wrapper execution failed" else serr))
        (usageObj 0 0 0) count created model (by intro hh; cases hh) (fun _ => ⟨_, rfl⟩)

/-- Witness for C3 at a concrete successful run (`ok: true`, output
`hello`). -/
theorem C3_finish_reason_text_witness :
    GoodOutcome "hi"
      (nodeOutcome "hi" (NodeEvent.resolved ⟨true, some "hello", none⟩) "" "") ∧
    C3Conclusion
      (runCliWrapper "hi"
        (nodeOutcome "hi" (NodeEvent.resolved ⟨true, some "hello", none⟩) "" ""))
      1 0 "claude" := by
  have hg : GoodOutcome "hi"
      (nodeOutcome "hi" (NodeEvent.resolved ⟨true, some "hello", none⟩) "" "") := by
    intro rc sout js serr v h1 h2
    refine ⟨NodeEvent.resolved ⟨true, some "hello", none⟩, ?_, ?_⟩
    · injection h1 with ha hb hc hd
      rw [hc.symm] at h2
      injection h2 with h4
      exact h4.symm
    · intro _
      exact ⟨"hello", rfl, by decide⟩
  exact ⟨hg, C3_finish_reason_text "hi" _ hg 1 0 "claude"⟩

/-- Claim C4: the prompt built by `_format_messages` consists of the
role-tagged blocks (`ROLE:` newline `content`) of the messages in original
list order, consecutive blocks separated by a blank line (plus one trailing
newline when the list is non-empty); consequently each message block occurs
verbatim inside the built prompt. -/
theorem C4_format_messages :
    (∀ msgs : List ChatMsg,
      formatMessages msgs =
        joinSep "\n\n" (msgs.map msgBlock) ++ (if msgs.isEmpty then "" else "\n"))
    ∧ (∀ msgs : List ChatMsg, ∀ m ∈ msgs,
        ∃ l r : List Char, (formatMessages msgs).data = l ++ (msgBlock m).data ++ r) :=
  ⟨joinSep_shift, formatMessages_contains⟩

/-- Witness for C4 at a concrete one-message list. -/
theorem C4_format_messages_witness :
    (⟨some "user", some "hi"⟩ : ChatMsg) ∈ [(⟨some "user", some "hi"⟩ : ChatMsg)] ∧
    ∃ l r : List Char,
      (formatMessages [⟨some "user", some "hi"⟩]).data =
        l ++ (msgBlock ⟨some "user", some "hi"⟩).data ++ r :=
  ⟨List.mem_singleton.mpr rfl,
   C4_format_messages.2 [⟨some "user", some "hi"⟩] _ (List.mem_singleton.mpr rfl)⟩

/-- Claim C5 (amended): a CLI response produced by the node script (resolved
or rejected promise) carries the ceil-of-quarters usage estimate, but every
Python-side failure envelope of `_run_cli_wrapper` (unparseable stdout,
non-zero exit, timeout, other exception) carries all-zero usage instead of
the estimate. -/
theorem C5_usage_by_origin :
    (∀ prompt ev sout serr,
      (runCliWrapper prompt (nodeOutcome prompt ev sout serr)).getField "usage" =
        some (usageObj (ceil4 prompt.length) (ceil4 (nodeOutLen ev))
          (ceil4 (prompt.length + nodeOutLen ev))))
    ∧ (∀ prompt sout serr,
        (runCliWrapper prompt (.completed 0 sout none serr)).getField "usage" =
          some (usageObj 0 0 0))
    ∧ (∀ prompt rc sout js serr, rc ≠ 0 →
        (runCliWrapper prompt (.completed rc sout js serr)).getField "usage" =
          some (usageObj 0 0 0))
    ∧ (∀ prompt, (runCliWrapper prompt .timeout).getField "usage" = some (usageObj 0 0 0))
    ∧ (∀ prompt msg,
        (runCliWrapper prompt (.raised msg)).getField "usage" = some (usageObj 0 0 0)) := by
  refine ⟨?_, fun _ _ _ => rfl, ?_, fun _ => rfl, fun _ _ => rfl⟩
  · intro prompt ev sout serr
    cases ev with
    | rejected msg =>
      simp [runCliWrapper, nodeOutcome, nodeResponse, nodeRejectedResponse,
        JVal.getField, jlookup, usageObj, nodeOutLen, ceil4]
    | resolved r =>
      obtain ⟨ok, text, errs⟩ := r
      rcases text with _ | s
      · simp [runCliWrapper, nodeOutcome, nodeResponse, nodeResolvedResponse,
          JVal.getField, jlookup, usageObj, nodeOutLen, ceil4]
      · by_cases hs : s = "" <;>
          simp [runCliWrapper, nodeOutcome, nodeResponse, nodeResolvedResponse,
            JVal.getField, jlookup, usageObj, nodeOutLen, ceil4, hs]
  · intro prompt rc sout js serr h
    simp [runCliWrapper, h, pyErrEnvelope, JVal.getField, jlookup]

/-- Witness for C5 at a concrete non-zero exit. -/
theorem C5_usage_by_origin_witness :
    (1 : Int) ≠ 0 ∧
      (runCliWrapper "hi" (.completed 1 "" none "boom")).getField "usage" =
        some (usageObj 0 0 0) :=
  ⟨by decide, C5_usage_by_origin.2.2.1 "hi" 1 "" none "boom" (by decide)⟩

/-- Counterexample to C5 as stated: on a timeout with prompt `hi`
(2 characters) the failure envelope carries `prompt_tokens = 0`, not the
§3 estimate `ceil(2/4) = 1`. -/
theorem C5_failure_usage_counterexample :
    envUsageField (runCliWrapper "hi" SubprocessOutcome.timeout) "prompt_tokens" =
      some (JVal.num 0) ∧
    ceil4 ("hi".length) = 1 ∧ (0 : Int) ≠ (1 : Int) :=
  ⟨rfl, rfl, by decide⟩

/-- Claim C6: `call_claude` skips the direct-CLI fallback exactly when the
Facade answered HTTP 200 (under the deployment fact that 200 bodies are
proxy chat envelopes, whose content extraction always succeeds); when the
Facade leg fails and the CLI leg fails too, the result is exactly the
explicit `Unable to reach Claude API` error, with no further retries. -/
theorem C6_fallback_order (facade : FacadeOutcome) (cli : CliOutcome)
    (h : FacadeWellFormed facade) : C6Conclusion facade cli := by
  constructor
  · constructor
    · intro hfalse
      cases facade with
      | unreachable => simp [callClaude] at hfalse
      | response s body =>
        by_cases hs : s = 200
        · exact ⟨body, by rw [hs]⟩
        · rw [callClaude_not200 _ cli (by intro b hb; injection hb with h1 _; exact hs h1)]
            at hfalse
          cases hfalse
    · rintro ⟨body, rfl⟩
      obtain ⟨count, created, model, resp, hresp⟩ := h body rfl
      obtain ⟨v, hv⟩ := extractChatContent_of_createChat count created model resp body hresp
      have hcc : callClaude (.response 200 body) cli = (.ok v, false) := by
        show (match extractChatContent body with
          | some v => ((Except.ok v : Except String JVal), false)
          | none => ((runClaudeCliLeg cli).map JVal.str, true)) = (.ok v, false)
        rw [hv]
      rw [hcc]
  · intro hnf hcf
    rw [callClaude_not200 facade cli hnf]
    cases cli with
    | failed => rfl
    | ran rc sout =>
      have hrc : rc ≠ 0 := hcf
      simp [runClaudeCliLeg, hrc, Except.map]

/-- Witness for C6 with the Facade unreachable and the CLI exiting 1. -/
theorem C6_fallback_order_witness :
    C6Conclusion FacadeOutcome.unreachable (CliOutcome.ran 1 "") := by
  have hw : FacadeWellFormed FacadeOutcome.unreachable := by
    intro body hb; cases hb
  exact C6_fallback_order FacadeOutcome.unreachable (CliOutcome.ran 1 "") hw

/-- Claim C7: `_clean_env` returns exactly the entries of the environment
snapshot whose names contain no nested-session marker (`CLAUDECODE` or
`CLAUDE_CODE`), as a sublist of the untouched input copy — the embedding is
the pure function the spec prescribes, so the argument environment is never
mutated. -/
theorem C7_clean_env :
    ∀ env : List (String × String),
      (∀ kv : String × String,
        kv ∈ cleanEnv env ↔ kv ∈ env ∧ hasNestedMarker kv.1 = false)
      ∧ (cleanEnv env).Sublist env := by
  intro env
  constructor
  · intro kv
    constructor
    · intro h
      have := List.mem_filter.mp h
      exact ⟨this.1, by simpa using this.2⟩
    · intro h
      exact List.mem_filter.mpr ⟨h.1, by simp [h.2]⟩
  · exact List.filter_sublist env

/-- Claim C8 (amended): a zero exit with unparseable stdout yields a failure
whose error message always carries the fixed prefix `Failed to parse
response: `, while a non-zero exit yields `stderr` or the default
`CLI wrapper execution failed`; the default does not carry the parse-failure
prefix, so the two default forms are distinguishable — but equality is
possible when stderr itself starts with the parse prefix. -/
theorem C8_error_message_forms :
    (∀ prompt sout serr,
      (runCliWrapper prompt (.completed 0 sout none serr)).getField "error" =
        some (.str ("Failed to parse response: " ++ sout)) ∧
      (runCliWrapper prompt (.completed 0 sout none serr)).getField "ok" =
        some (.bool false))
    ∧ (∀ prompt rc sout js serr, rc ≠ 0 →
        (runCliWrapper prompt (.completed rc sout js serr)).getField "error" =
          some (.str (if serr = "" then "CLI wrapper execution failed" else serr)))
    ∧ charsPre "Failed to parse response: ".data "CLI wrapper execution failed".data
        = false := by
  refine ⟨fun _ _ _ => ⟨rfl, rfl⟩, ?_, by decide⟩
  intro prompt rc sout js serr h
  simp [runCliWrapper, h, pyErrEnvelope, JVal.getField, jlookup]

/-- Witness for C8 at a concrete non-zero exit with non-empty stderr. -/
theorem C8_error_message_forms_witness :
    (1 : Int) ≠ 0 ∧
      (runCliWrapper "p" (.completed 1 "out" none "boom")).getField "error" =
        some (.str (if ("boom" : String) = "" then "CLI wrapper execution failed" else "boom")) :=
  ⟨by decide, C8_error_message_forms.2.1 "p" 1 "out" none "boom" (by decide)⟩

/-- Counterexample to C8 as stated: a zero exit with empty stdout and a
non-zero exit whose stderr is exactly `Failed to parse response: ` produce
identical error messages, so the parse-failure error is not distinguishable
from every non-zero-exit error. -/
theorem C8_equal_error_counterexample :
    (runCliWrapper "p" (SubprocessOutcome.completed 0 "" none "")).getField "error" =
      some (.str "Failed to parse response: ") ∧
    (runCliWrapper "p"
        (SubprocessOutcome.completed 1 "x" none "Failed to parse response: ")).getField
        "error" =
      some (.str "Failed to parse response: ") :=
  ⟨rfl, rfl⟩

/-- Claim C9 (amended): `_run_cli_wrapper` catches every failure (timeout,
non-zero exit, unparseable stdout, any exception) and each envelope it
builds itself has exactly the keys `ok`, `text`, `error`, `usage` with the
three token-count fields; the node-script responses also have that shape;
but when the subprocess exits zero and its stdout parses as JSON, that
parsed value is returned verbatim, whatever its shape. -/
theorem C9_result_shape :
    (∀ prompt sout serr,
      isEnvelopeShaped (runCliWrapper prompt (.completed 0 sout none serr)) = true)
    ∧ (∀ prompt rc sout js serr, rc ≠ 0 →
        isEnvelopeShaped (runCliWrapper prompt (.completed rc sout js serr)) = true)
    ∧ (∀ prompt, isEnvelopeShaped (runCliWrapper prompt .timeout) = true)
    ∧ (∀ prompt msg, isEnvelopeShaped (runCliWrapper prompt (.raised msg)) = true)
    ∧ (∀ prompt ev sout serr,
        isEnvelopeShaped (runCliWrapper prompt (nodeOutcome prompt ev sout serr)) = true)
    ∧ (∀ prompt sout serr v,
        runCliWrapper prompt (.completed 0 sout (some v) serr) = v) := by
  refine ⟨fun _ _ _ => rfl, ?_, fun _ => rfl, fun _ _ => rfl, ?_, fun _ _ _ _ => rfl⟩
  · intro prompt rc sout js serr h
    simp [runCliWrapper, h, pyErrEnvelope, isEnvelopeShaped, usageObj]
  · intro prompt ev sout serr
    cases ev with
    | rejected msg => rfl
    | resolved r => rfl

/-- Witness for C9 at a concrete non-zero exit. -/
theorem C9_result_shape_witness :
    (1 : Int) ≠ 0 ∧
      isEnvelopeShaped (runCliWrapper "p" (.completed 1 "out" none "err")) = true :=
  ⟨by decide, C9_result_shape.2.1 "p" 1 "out" none "err" (by decide)⟩

/-- Counterexample to C9 as stated: a zero exit whose stdout is the JSON
number `3` makes `_run_cli_wrapper` return the number `3` itself — not a
record with the keys `ok`, `text`, `error`, `usage`. -/
theorem C9_nonrecord_counterexample :
    runCliWrapper "p" (SubprocessOutcome.completed 0 "3" (some (JVal.num 3)) "") =
      JVal.num 3 ∧
    isEnvelopeShaped (JVal.num 3) = false ∧
    (JVal.num 3).getField "ok" = none :=
  ⟨rfl, rfl, rfl⟩

/-- Claim C10: when the Facade answers 200 with a chat envelope whose
underlying CLI response has `ok: false`, `call_claude` returns the
`Error: ...` content as the generated text, as a success, and the
direct-CLI fallback is not attempted. -/
theorem C10_error_as_success (count : Nat) (created : Int) (model : String)
    (resp e : JVal) (cli : CliOutcome)
    (h1 : createChatCompletionJ count created model resp = some e)
    (h2 : resp.getField "ok" = some (.bool false)) :
    C10Conclusion e cli := by
  unfold createChatCompletionJ at h1
  rw [h2] at h1
  rcases herr : resp.getField "error" with _ | errv
  · rw [herr] at h1
    simp [JVal.truthy] at h1
  · rw [herr] at h1
    simp [JVal.truthy] at h1
    subst h1
    exact ⟨errv.pyStr, rfl, rfl, rfl⟩

/-- Witness for C10 at a concrete failure envelope (`error: boom`). -/
theorem C10_error_as_success_witness :
    ∃ e, createChatCompletionJ 1 0 "claude" (pyErrEnvelope "boom") = some e ∧
      C10Conclusion e CliOutcome.failed :=
  ⟨_, rfl, C10_error_as_success 1 0 "claude" (pyErrEnvelope "boom") _ CliOutcome.failed rfl rfl⟩
